import Mathlib

/-!
Verification of the UAVSAR scene orchestrator (uavsar_pytools) against its
natural-language specification.  The Python class UavsarScene
(src/uavsar_pytools/uavsar_scene.py) is embedded shallowly: strings model
file paths, an explicit record models the file system, and fallible
operations return Except values.  The collaborators that are not part of
the given sources (download_zip, unzip, grd_tiff_convert, and the
annotation/georeferencing/binary-reading core) are modelled from the
specification text and marked as such in their doc comments.
-/

/-! ## String and path helpers (Python semantics, char-list based) -/

/-- Split a character list at every occurrence of a separator character,
mirroring Python str.split with a one-character separator. -/
def splitChar (sep : Char) : List Char → List (List Char)
  | [] => [[]]
  | c :: rest =>
    let r := splitChar sep rest
    if c == sep then [] :: r
    else
      match r with
      | [] => [[c]]
      | h :: t => (c :: h) :: t

/-- Substring occurrence on character lists, mirroring the Python
membership test sub in s. -/
def isSubList (pat : List Char) : List Char → Bool
  | [] => pat.isEmpty
  | c :: rest => pat.isPrefixOf (c :: rest) || isSubList pat rest

/-- Python membership test: sub in s. -/
def containsSub (s sub : String) : Bool := isSubList sub.data s.data

/-- Python str.startswith. -/
def strStarts (pre s : String) : Bool := pre.data.isPrefixOf s.data

/-- Python str.endswith. -/
def strEnds (suf s : String) : Bool := suf.data.isSuffixOf s.data

/-- Python str.upper for the ASCII names used here. -/
def strUpper (s : String) : String := String.mk (s.data.map Char.toUpper)

/-- Python str.split with a one-character separator, as strings. -/
def splitStr (sep : Char) (s : String) : List String :=
  (splitChar sep s.data).map String.mk

/-- os.path.basename for slash-separated paths. -/
def basename (p : String) : String := String.mk ((splitChar '/' p.data).getLastD [])

/-- os.path.dirname for slash-separated paths. -/
def dirname (p : String) : String :=
  String.mk (List.intercalate ['/'] ((splitChar '/' p.data).dropLast))

/-- os.path.join for two path segments. -/
def joinPath (a b : String) : String :=
  if strStarts "/" b then b
  else if a == "" then b
  else if strEnds "/" a then a ++ b
  else a ++ "/" ++ b

/-- Whether path p lies in the subtree rooted at root (p is root itself or
has root followed by a slash as a path prefix). -/
def underPath (root p : String) : Bool := p == root || strStarts (root ++ "/") p

/-- Python truthiness of an optional string: None and the empty string are
falsy. -/
def optFalsy : Option String → Bool
  | none => true
  | some s => s.isEmpty

/-! ## File-system model -/

/-- Abstract content of a file on disk. -/
inductive FileData
  | zipFile (url : String)
  | raw (id : Nat)
  | tiff (src ann : String)
deriving DecidableEq

/-- A file system: a list of existing directories and a list of files with
their contents. -/
structure FS where
  dirs : List String
  files : List (String × FileData)
deriving DecidableEq

/-- Lookup of a file content by path. -/
def FS.content (fs : FS) (p : String) : Option FileData := fs.files.lookup p

/-- Membership of a directory. -/
def FS.hasDir (fs : FS) (p : String) : Bool := fs.dirs.any (fun d => d == p)

/-- os.path.exists: the path is a known directory or file. -/
def pathExists (fs : FS) (p : String) : Bool :=
  fs.hasDir p || fs.files.any (fun q => q.1 == p)

/-- os.makedirs, eliding the intermediate parents (only the full path is
recorded; the claims considered never distinguish the parents). -/
def makedirs (fs : FS) (p : String) : FS := { fs with dirs := fs.dirs ++ [p] }

/-- Create or replace the file at path p. -/
def writeFileFS (fs : FS) (p : String) (d : FileData) : FS :=
  { fs with files := fs.files.filter (fun q => !(q.1 == p)) ++ [(p, d)] }

/-- shutil.rmtree: remove the directory p and everything below it. -/
def rmtree (fs : FS) (p : String) : FS :=
  { dirs := fs.dirs.filter (fun d => !(underPath p d)),
    files := fs.files.filter (fun q => !(underPath p q.1)) }

/-- os.listdir: base names of the file-system entries whose parent is d. -/
def listdir (fs : FS) (d : String) : List String :=
  (fs.files.filter (fun q => dirname q.1 == d)).map (fun q => basename q.1) ++
    (fs.dirs.filter (fun q => dirname q == d)).map basename

/-! ## Errors and data model -/

/-- The Python exceptions that the embedded operations can raise. -/
inductive PyError
  | valueError (msg : String)
  | keyError (key : String)
  | indexError
  | typeError
  | nameError (n : String)
  | fileExistsError (p : String)
  | sizeMismatchError
  | missingParameterError (k : String)
deriving DecidableEq

/-- An in-memory pixel array produced by converting one binary file with
one annotation file. -/
inductive PixelArray
  | fromFile (f ann : String)
deriving DecidableEq

/-- One Conversion Result as stored in UavsarScene.images: description of
the image (identified by the annotation file it was parsed from), the
optional retained pixel array, the output path and the product type. -/
structure ConvResult where
  description : String
  array : Option PixelArray
  out_fp : String
  type : String
deriving DecidableEq

/-- The state of a UavsarScene object: the attributes set by __init__ and
updated by download, unzip and binary_to_tiffs. -/
structure UavsarScene where
  url : String
  pair_name : String
  work_dir : String
  clean : Bool
  debug : Bool
  low_ram : Bool
  zipped_fp : Option String
  ann_fp : Option String
  binary_fps : List String
  images : List (String × ConvResult)
  tmp_dir : Option String
  pols : Option (List String)
  out_dir : Option String
deriving DecidableEq, Inhabited

/-- The four valid polarizations (uavsar_scene.py lines 53 and 105). -/
def validPols : List String := ["VV", "VH", "HV", "HH"]

/-- os.path.expanduser, with the home directory passed explicitly. -/
def expanduser (home p : String) : String :=
  if strStarts "~" p then home ++ String.mk (p.data.drop 1) else p

/-- UavsarScene.__init__ (uavsar_scene.py lines 39-58).  A non-empty pols
list is uppercased and checked against the four valid polarizations; a bad
entry raises ValueError.  An empty or absent pols list is stored as is. -/
def UavsarScene.init (home url work_dir : String) (clean debug low_ram : Bool)
    (pols : Option (List String)) : Except PyError UavsarScene :=
  let base : UavsarScene :=
    { url := url
      pair_name := (splitStr '.' (basename url)).headD ""
      work_dir := expanduser home work_dir
      clean := clean, debug := debug, low_ram := low_ram
      zipped_fp := none, ann_fp := none, binary_fps := []
      images := [], tmp_dir := none, pols := none, out_dir := none }
  match pols with
  | none => .ok base
  | some ps =>
    if ps.isEmpty then .ok { base with pols := some ps }
    else
      let ups := ps.map strUpper
      if ups.all (fun p => validPols.any (fun v => v == p)) then
        .ok { base with pols := some ups }
      else .error (.valueError "Bad Polarization Provided.")

instance {ε α : Type} [DecidableEq ε] [DecidableEq α] : DecidableEq (Except ε α) :=
  fun a b =>
    match a, b with
    | .ok x, .ok y =>
      if h : x = y then .isTrue (congrArg Except.ok h)
      else .isFalse (fun hh => h (Except.ok.inj hh))
    | .error x, .error y =>
      if h : x = y then .isTrue (congrArg Except.error h)
      else .isFalse (fun hh => h (Except.error.inj hh))
    | .ok _, .error _ => .isFalse (fun hh => Except.noConfusion hh)
    | .error _, .ok _ => .isFalse (fun hh => Except.noConfusion hh)

/-! ## Scene operations -/

/-- Modelled from the spec: collaborator contract (section 6)
download(url, destination_dir) -> local_zip_path.  The missing module
uavsar_pytools.download.download is not under the given sources.  The zip
lands in the destination directory, is named from the url, and is created
on disk; the local path is returned. -/
def download_zip (url out_dir : String) (fs : FS) : String × FS :=
  let zfp := joinPath out_dir (basename url)
  (zfp, writeFileFS fs zfp (.zipFile url))

/-- UavsarScene.download (uavsar_scene.py lines 61-76): records the tmp
directory, creates it when absent, and either downloads the zip (when the
url ends in zip) or logs a warning.  Returns the new scene state, the new
file system and the warnings logged. -/
def UavsarScene.download (s : UavsarScene) (fs : FS) (sub_dir : String) :
    UavsarScene × FS × List String :=
  let out_dir := joinPath (joinPath s.work_dir sub_dir) s.pair_name
  let s1 := { s with tmp_dir := some out_dir }
  let fs1 := if pathExists fs out_dir then fs else makedirs fs out_dir
  if (splitStr '.' s1.url).getLastD "" == "zip" then
    let z := download_zip s1.url out_dir fs1
    ({ s1 with zipped_fp := some z.1 }, z.2, [])
  else
    (s1, fs1, ["UavsarScene for zip files. Using UavsarImage for single images."])

/-- Modelled from the spec: collaborator contract (section 6)
unzip(zip_or_dir_path, destination_dir, polarization_filter) ->
list_of_extracted_file_paths.  The missing module
uavsar_pytools.convert.file_control is not under the given sources.  The
names extracted from the archive are supplied by the collaborator as a
parameter; the files are placed in the destination directory, creating
them on disk, and the list of extracted paths is returned. -/
def unzip_ext (extracted : List String) (out_dir : String) (fs : FS) :
    List String × FS :=
  ((extracted.map (fun n => joinPath out_dir n)),
    extracted.foldl (fun acc n => writeFileFS acc (joinPath out_dir n) (.raw 0)) fs)

/-- UavsarScene.unzip (uavsar_scene.py lines 78-96): warns when no zip is
known, joins the unpack directory below tmp_dir (a TypeError when tmp_dir
is still None, as os.path.join(None, sub_dir) raises), creates it when
absent, and records the extracted binary file paths. -/
def UavsarScene.unzip (s : UavsarScene) (fs : FS) (extracted : List String)
    (in_dir : Option String) (sub_dir : String) :
    Except PyError (UavsarScene × FS) × List String :=
  let warns :=
    match in_dir with
    | some _ => []
    | none =>
      match s.zipped_fp with
      | none => ["No known zip file for this scene. Please provide."]
      | some _ => []
  match s.tmp_dir with
  | none => (.error .typeError, warns)
  | some t =>
    let out_dir := joinPath t sub_dir
    let fs1 := if pathExists fs out_dir then fs else makedirs fs out_dir
    let r := unzip_ext extracted out_dir fs1
    (.ok ({ s with binary_fps := r.1 }, r.2), warns)

/-! ## Conversion of one binary file (modelled core) -/

/-- Modelled from the spec: the product type of a binary file (Glossary;
section 2 per-product-type dispatch; Conversion Results keyed by
product_type).  The spec fixes the type vocabulary (unw, int, cor, hgt,
slope, and the empty type) but not its derivation from the file name; it
is taken here as the second dot-separated component of the base name,
matching that vocabulary for the vendor naming scheme. -/
def product_type (f : String) : String :=
  ((splitStr '.' (basename f)).drop 1).headD ""

/-- Modelled from the spec: grd_tiff_convert, the conversion core for one
binary file (sections 4.1-4.4), from the missing module
uavsar_pytools.convert.tiff_conversion.  It parses the annotation file,
reads the binary and writes a georeferenced raster into out_dir at a path
derived from the binary file name; when the output already exists and
overwriting is not permitted it fails with FileExistsError (section 4.4);
on success it returns the new file system together with the tuple
(description, array, product type, output path) consumed at
uavsar_scene.py line 138. -/
def grd_tiff_convert (fs : FS) (f out_dir ann_fp : String)
    (overwrite debug : Bool) :
    Except PyError (FS × String × PixelArray × String × String) :=
  let t := product_type f
  let out_fp := joinPath out_dir (basename f ++ ".tiff")
  if pathExists fs out_fp && !overwrite then .error (.fileExistsError out_fp)
  else .ok (writeFileFS fs out_fp (.tiff f ann_fp), ann_fp, .fromFile f ann_fp, t, out_fp)

/-! ## UavsarScene.binary_to_tiffs -/

/-- The per-polarization choice of annotation file (uavsar_scene.py lines
121-125): for each polarization, the first annotation path containing it,
taken over the full path as in the source. -/
def annDic (ann_fps : List String) : List (String × String) :=
  validPols.filterMap (fun pol =>
    match ann_fps.filter (fun fp => containsSub fp pol) with
    | [] => none
    | a :: _ => some (pol, a))

/-- Python dict insertion: replace the value at an existing key in place,
otherwise append the binding. -/
def dictInsert (m : List (String × ConvResult)) (k : String) (v : ConvResult) :
    List (String × ConvResult) :=
  if m.any (fun q => q.1 == k) then
    m.map (fun q => if q.1 == k then (k, v) else q)
  else m ++ [(k, v)]

/-- The keys of a Python dict after inserting k: unchanged when k is
already a key, extended by k at the end otherwise. -/
def insertKey (ks : List String) (k : String) : List String :=
  if ks.any (fun x => x == k) then ks else ks ++ [k]

/-- The loop of uavsar_scene.py lines 132-142, one binary image file at a
time.  annEnv is the pair (ann_fps, ann_dic) when line 119 defined those
local names, and none otherwise (accessing them then is a Python
NameError).  The loop state is the mutable local ann_fp, the file system
and the images dictionary. -/
def convertLoop (low_ram debug : Bool) (out_dir : String)
    (annEnv : Option (List String × List (String × String))) :
    List String → Option String → FS → List (String × ConvResult) →
      Except PyError (Option String × FS × List (String × ConvResult))
  | [], ann_fp, fs, images => .ok (ann_fp, fs, images)
  | f :: rest, ann_fp, fs, images =>
    let step : Except PyError (Option String) :=
      match annEnv with
      | none => .error (.nameError "ann_dic")
      | some (_, adic) =>
        if 0 < adic.length then
          match validPols.filter (fun pol => containsSub (basename f) pol) with
          | [] => .error .indexError
          | f_pol :: _ =>
            match adic.lookup f_pol with
            | none => .error (.keyError f_pol)
            | some a => .ok (some a)
        else .ok ann_fp
    match step with
    | .error e => .error e
    | .ok ann_fp1 =>
      let chosen : Except PyError String :=
        if optFalsy ann_fp1 then
          match annEnv with
          | none => .error (.nameError "ann_fps")
          | some ([], _) => .error .indexError
          | some (a :: _, _) => .ok a
        else .ok (ann_fp1.getD "")
      match chosen with
      | .error e => .error e
      | .ok afp =>
        match grd_tiff_convert fs f out_dir afp true debug with
        | .error e => .error e
        | .ok (fs1, desc, array, t, out_fp) =>
          let result : ConvResult :=
            if low_ram then
              { description := desc, array := none, out_fp := out_fp, type := t }
            else
              { description := desc, array := some array, out_fp := out_fp, type := t }
          convertLoop low_ram debug out_dir annEnv rest (some afp) fs1
            (dictInsert images t result)

/-- UavsarScene.binary_to_tiffs (uavsar_scene.py lines 98-146).  Note that
line 110 evaluates Exception(...) without raising it, so an empty binary
file list is not an error; execution continues, the output directory is
created, and with clean set the tmp tree is removed (a TypeError when
tmp_dir is still None, as os.path.dirname(None) raises).  Returns the
outcome together with the warnings logged. -/
def UavsarScene.binary_to_tiffs (s : UavsarScene) (fs : FS)
    (binary_dir ann_fp0 : Option String) :
    Except PyError (UavsarScene × FS) × List String :=
  let s1 :=
    match binary_dir with
    | none => s
    | some d => { s with binary_fps := listdir fs d }
  let out_dir := joinPath s1.work_dir s1.pair_name
  let fs1 := if pathExists fs out_dir then fs else makedirs fs out_dir
  let annEnvWarns :
      Option (List String × List (String × String)) × List String :=
    if optFalsy ann_fp0 then
      let afps := s1.binary_fps.filter (fun a => containsSub a ".ann")
      (some (afps, annDic afps),
        if afps.isEmpty then ["No annotation file found for binary files."] else [])
    else (none, [])
  let binary_img_fps := s1.binary_fps.filter (fun f => !(containsSub f ".ann"))
  match convertLoop s1.low_ram s1.debug out_dir annEnvWarns.1 binary_img_fps
      ann_fp0 fs1 s1.images with
  | .error e => (.error e, annEnvWarns.2)
  | .ok (_, fs2, images) =>
    let s2 := { s1 with images := images, out_dir := some out_dir }
    if s2.clean then
      match s2.tmp_dir with
      | none => (.error .typeError, annEnvWarns.2)
      | some t => (.ok (s2, rmtree fs2 (dirname t)), annEnvWarns.2)
    else (.ok (s2, fs2), annEnvWarns.2)

/-! ## Binary Reader and Georeferencing Resolver (modelled core) -/

/-- Modelled from the spec: the Product Descriptor (section 3) derived
from an Annotation Record for one binary file. -/
structure ProductDescriptor where
  product_type : String
  rows : Nat
  columns : Nat
  bytes_per_pixel : Nat
  band_count : Nat
deriving DecidableEq

/-- The shape of a pixel array: 2-D, or 3-D for multi-band products. -/
inductive ArrShape
  | two (rows cols : Nat)
  | three (bands rows cols : Nat)
deriving DecidableEq

/-- Modelled from the spec: the Binary Reader (section 4.3), from the
missing module uavsar_pytools.convert.tiff_conversion.  It validates that
the file size on disk equals rows x columns x bytes-per-pixel x band
count, failing with SizeMismatchError otherwise, and returns an array of
shape (rows, columns), or (bands, rows, columns) for multi-band
products. -/
def readBinary (d : ProductDescriptor) (fileSize : Nat) : Except PyError ArrShape :=
  if fileSize = d.rows * d.columns * d.bytes_per_pixel * d.band_count then
    .ok (if d.band_count = 1 then .two d.rows d.columns
         else .three d.band_count d.rows d.columns)
  else .error .sizeMismatchError

/-- Modelled from the spec: reading followed by writing (sections 4.3, 4.4
and 7): a read failure aborts the conversion of that file before anything
is written, so the file system is returned unchanged alongside the
error. -/
def readThenWrite (fs : FS) (d : ProductDescriptor) (fileSize : Nat)
    (out_fp : String) : Except PyError ArrShape × FS :=
  match readBinary d fileSize with
  | .error e => (.error e, fs)
  | .ok a => (.ok a, writeFileFS fs out_fp (.raw 1))

/-- Modelled from the spec: an Annotation Record restricted to the keys
the Georeferencing Resolver requires (section 4.2); a missing key is
None. -/
structure GeoRecord where
  rows : Option Nat
  columns : Option Nat
  row_spacing : Option ℚ
  column_spacing : Option ℚ
  start_lat : Option ℚ
  start_lon : Option ℚ

/-- A Georeference: coordinate reference system identifier plus affine
transform (origin and pixel sizes). -/
structure Georeference where
  crs : String
  origin_x : ℚ
  origin_y : ℚ
  pixel_size_x : ℚ
  pixel_size_y : ℚ
deriving DecidableEq

/-- Modelled from the spec: the Georeferencing Resolver (section 4.2),
from the missing conversion module.  origin = (starting longitude,
starting latitude); pixel size = (column spacing, negated row spacing);
MissingParameterError when a required key is absent. -/
def resolve (r : GeoRecord) : Except PyError Georeference :=
  match r.rows, r.columns, r.row_spacing, r.column_spacing, r.start_lat, r.start_lon with
  | some _, some _, some rsp, some csp, some lat, some lon =>
    .ok { crs := "EPSG:4326", origin_x := lon, origin_y := lat,
          pixel_size_x := csp, pixel_size_y := -rsp }
  | _, _, _, _, _, _ => .error (.missingParameterError "georeferencing key")

/-! ## Result extractors for concrete runs -/

/-- Whether an Except value is a success. -/
def isOkE {α : Type} : Except PyError α → Bool
  | .ok _ => true
  | .error _ => false

/-- The scene of a successful outcome (a fixed default otherwise). -/
def sceneOf : Except PyError (UavsarScene × FS) → UavsarScene
  | .ok p => p.1
  | .error _ => default

/-- The file system of a successful outcome (empty otherwise). -/
def fsOf : Except PyError (UavsarScene × FS) → FS
  | .ok p => p.2
  | .error _ => ⟨[], []⟩

/-- The images dictionary of a successful outcome. -/
def imagesOf (r : Except PyError (UavsarScene × FS)) : List (String × ConvResult) :=
  (sceneOf r).images

/-- The pair name recorded by a successful construction. -/
def pairOfInit : Except PyError UavsarScene → String
  | .ok s => s.pair_name
  | .error _ => ""

/-- The polarization filter recorded by a successful construction. -/
def polsOfInit : Except PyError UavsarScene → Option (List String)
  | .ok s => s.pols
  | .error _ => none

/-! ## Concrete scene runs used by the claims -/

/-- Scene one: constructed and downloaded, never unzipped (binary_fps is
still empty), over an initially empty disk. -/
def c1_setup : UavsarScene × FS :=
  match UavsarScene.init "" "http://u/p1.zip" "w" true false false none with
  | .error _ => (default, ⟨[], []⟩)
  | .ok s =>
    let d := s.download ⟨[], []⟩ "tmp/"
    (d.1, d.2.1)

/-- Calling the conversion step on scene one before unzipping. -/
def c1_run : Except PyError (UavsarScene × FS) × List String :=
  (c1_setup.1).binary_to_tiffs c1_setup.2 none none

/-- Two scenes with distinct pair names sharing one working directory:
scene p2 downloads its zip, then scene p1 downloads and converts (with
cleaning on).  Returns the outcome of the p1 conversion and the disk state
just before it. -/
def c4_setup : (Except PyError (UavsarScene × FS) × List String) × FS :=
  match UavsarScene.init "" "http://u/p1.zip" "w" true false false none,
      UavsarScene.init "" "http://u/p2.zip" "w" true false false none with
  | .ok sa, .ok sb =>
    let db := sb.download ⟨[], []⟩ "tmp/"
    let da := sa.download db.2.1 "tmp/"
    ((da.1).binary_to_tiffs da.2.1 none none, da.2.1)
  | _, _ => ((.error .typeError, []), ⟨[], []⟩)

/-- Two scenes with distinct pair names and DISTINCT work directories:
scene p2 (work directory wB) downloads its zip, then scene p1 (work
directory wA) downloads; returns the p1 scene and the disk just before
its conversion. -/
def c4w_setup : UavsarScene × FS :=
  match UavsarScene.init "" "http://u/p1.zip" "wA" true false false none,
      UavsarScene.init "" "http://u/p2.zip" "wB" true false false none with
  | .ok sa, .ok sb =>
    let db := sb.download ⟨[], []⟩ "tmp/"
    let da := sa.download db.2.1 "tmp/"
    (da.1, da.2.1)
  | _, _ => (default, ⟨[], []⟩)

/-- Converting the wA scene while the wB scene has files on disk. -/
def c4w_run : Except PyError (UavsarScene × FS) × List String :=
  (c4w_setup.1).binary_to_tiffs c4w_setup.2 none none

/-- A scene holding binary files for the HH and HV polarizations but an
annotation file for HH only, after download and unzip. -/
def c2_setup : UavsarScene × FS :=
  match UavsarScene.init "" "http://u/p2.zip" "w2" true false false none with
  | .error _ => (default, ⟨[], []⟩)
  | .ok s =>
    let d := s.download ⟨[], []⟩ "tmp/"
    match (d.1).unzip d.2.1 ["s_HH.grd", "s_HV.grd", "s_HH.ann"] none "bin_imgs/" with
    | (.ok (s2, fs2), _) => (s2, fs2)
    | (.error _, _) => (default, ⟨[], []⟩)

/-- Converting the scene whose HV annotation is missing. -/
def c2_run : Except PyError (UavsarScene × FS) × List String :=
  (c2_setup.1).binary_to_tiffs c2_setup.2 none none

/-- A scene with one HH binary file and its annotation, after download and
unzip, where the output raster of the HH file already exists on disk with
content raw 7; cleaning is off. -/
def c3_setup : UavsarScene × FS :=
  match UavsarScene.init "" "http://u/p3.zip" "w3" false false false none with
  | .error _ => (default, ⟨[], []⟩)
  | .ok s =>
    let d := s.download ⟨[], []⟩ "tmp/"
    match (d.1).unzip d.2.1 ["s_HH.grd", "s_HH.ann"] none "bin_imgs/" with
    | (.ok (s2, fs2), _) => (s2, writeFileFS fs2 "w3/p3/s_HH.grd.tiff" (.raw 7))
    | (.error _, _) => (default, ⟨[], []⟩)

/-- Converting the scene whose output raster already exists. -/
def c3_run : Except PyError (UavsarScene × FS) × List String :=
  (c3_setup.1).binary_to_tiffs c3_setup.2 none none

/-- A scene with two binary files of distinct polarizations sharing one
product type, and one annotation file covering both, after download and
unzip; cleaning is off. -/
def c5_setup : UavsarScene × FS :=
  match UavsarScene.init "" "http://u/p5.zip" "w5" false false false none with
  | .error _ => (default, ⟨[], []⟩)
  | .ok s =>
    let d := s.download ⟨[], []⟩ "tmp/"
    match (d.1).unzip d.2.1 ["s_HH.grd", "s_HV.grd", "s_HHHV.ann"] none "bin_imgs/" with
    | (.ok (s2, fs2), _) => (s2, fs2)
    | (.error _, _) => (default, ⟨[], []⟩)

/-- Converting the scene with two binary files of one product type. -/
def c5_run : Except PyError (UavsarScene × FS) × List String :=
  (c5_setup.1).binary_to_tiffs c5_setup.2 none none

/-- A scene with one HH binary file and its annotation, constructed in
low-memory mode, after download and unzip; cleaning is off. -/
def c6_setup : UavsarScene × FS :=
  match UavsarScene.init "" "http://u/p6.zip" "w6" false false true none with
  | .error _ => (default, ⟨[], []⟩)
  | .ok s =>
    let d := s.download ⟨[], []⟩ "tmp/"
    match (d.1).unzip d.2.1 ["s_HH.grd", "s_HH.ann"] none "bin_imgs/" with
    | (.ok (s2, fs2), _) => (s2, fs2)
    | (.error _, _) => (default, ⟨[], []⟩)

/-- Converting the low-memory scene. -/
def c6_run : Except PyError (UavsarScene × FS) × List String :=
  (c6_setup.1).binary_to_tiffs c6_setup.2 none none

/-! ## Claim theorems -/

/-- C1: the code slip at uavsar_scene.py line 110.  For the scene that was
downloaded but never unzipped (its binary file list is empty), calling
binary_to_tiffs with no binary directory does NOT raise: the Exception is
constructed but never raised, the call completes successfully, and the
output directory w/p1 is created on disk (it did not exist before), so
disk I/O is performed.  This refutes the claimed precondition error. -/
theorem C1_conversion_before_unzip_no_error_and_creates_dir :
    c1_setup.1.binary_fps = [] ∧
    isOkE c1_run.1 = true ∧
    c1_setup.2.hasDir "w/p1" = false ∧
    (fsOf c1_run.1).hasDir "w/p1" = true := by
  refine ⟨by decide, by decide, by decide, by decide⟩

/-- C3: the scene conversion at uavsar_scene.py line 138 passes
overwrite=True unconditionally (while the class docstring documents an
overwrite argument defaulting to False that __init__ does not accept).
With the raster writer modelled from the spec (FileExistsError if the
output exists and overwriting is not permitted), an existing output
raster is silently replaced: before the call the output holds raw 7,
the call succeeds without FileExistsError, and afterwards the output
holds the newly converted raster. -/
theorem C3_existing_output_overwritten_without_permission :
    c3_setup.2.content "w3/p3/s_HH.grd.tiff" = some (.raw 7) ∧
    isOkE c3_run.1 = true ∧
    (fsOf c3_run.1).content "w3/p3/s_HH.grd.tiff" =
      some (.tiff "w3/tmp/p3/bin_imgs/s_HH.grd" "w3/tmp/p3/bin_imgs/s_HH.ann") := by
  refine ⟨by decide, by decide, by decide⟩

/-- C2 counterexample: a scene with HH and HV binary files but an
annotation file for HH only.  Converting does not log a warning and does
not skip the HV polarization: it aborts the whole scene with KeyError
for HV (uavsar_scene.py line 135), logging no warning at all. -/
theorem C2_counterexample_missing_pol_ann_raises_keyerror :
    c2_run = (.error (.keyError "HV"), []) := by
  decide

/-- C4 counterexample: two scenes with distinct pair names p1 and p2
sharing one working directory.  Scene p2 downloaded its zip; scene p1
then downloads and converts with cleaning on.  The cleanup at
uavsar_scene.py line 146 removes dirname(tmp_dir) = w/tmp, the tmp tree
shared by all scenes of that working directory, deleting the p2 zip
that belonged to the other scene. -/
theorem C4_counterexample_shared_workdir_cleanup_deletes_other_scene :
    pairOfInit (UavsarScene.init "" "http://u/p1.zip" "w" true false false none) ≠
      pairOfInit (UavsarScene.init "" "http://u/p2.zip" "w" true false false none) ∧
    (c4_setup.2).content "w/tmp/p2/p2.zip" = some (.zipFile "http://u/p2.zip") ∧
    isOkE c4_setup.1.1 = true ∧
    (fsOf c4_setup.1.1).content "w/tmp/p2/p2.zip" = none := by
  refine ⟨by decide, by decide, by decide, by decide⟩

/-- C5 counterexample: a scene with two binary files (HH and HV
polarizations) sharing one product type.  The conversion succeeds but the
result mapping, keyed by product type, holds a single entry for the two
converted binary files, not one Conversion Result per binary file. -/
theorem C5_counterexample_two_files_one_type_single_result :
    (c5_setup.1.binary_fps.filter (fun f => !(containsSub f ".ann"))).length = 2 ∧
    isOkE c5_run.1 = true ∧
    (imagesOf c5_run.1).length = 1 := by
  refine ⟨by decide, by decide, by decide⟩

/-- C7 counterexample: the filter list vv contains an element outside the
set of the four uppercase polarization names, yet construction succeeds
(no ValueError) and stores the uppercased form VV, because __init__
uppercases before validating (uavsar_scene.py line 52). -/
theorem C7_counterexample_lowercase_pols_accepted :
    isOkE (UavsarScene.init "" "http://u/p7.zip" "w7" true false false (some ["vv"])) =
      true ∧
    polsOfInit (UavsarScene.init "" "http://u/p7.zip" "w7" true false false (some ["vv"])) =
      some ["VV"] := by
  refine ⟨by decide, by decide⟩

/-- C8: the Binary Reader modelled from the spec validates the file size
against rows x columns x bytes-per-pixel x band count.  On mismatch it
fails with SizeMismatchError and writes nothing (the file system is
returned unchanged); on a match it returns an array of shape
(rows, columns), or (bands, rows, columns) for multi-band products. -/
theorem C8_read_size_validation (d : ProductDescriptor) (n : Nat) (fs : FS)
    (out : String) :
    (n ≠ d.rows * d.columns * d.bytes_per_pixel * d.band_count →
      readBinary d n = .error .sizeMismatchError ∧
      (readThenWrite fs d n out).1 = .error .sizeMismatchError ∧
      (readThenWrite fs d n out).2 = fs) ∧
    (n = d.rows * d.columns * d.bytes_per_pixel * d.band_count →
      (d.band_count = 1 → readBinary d n = .ok (.two d.rows d.columns)) ∧
      (d.band_count ≠ 1 →
        readBinary d n = .ok (.three d.band_count d.rows d.columns))) := by
  constructor
  · intro h
    simp [readBinary, readThenWrite, h]
  · intro h
    constructor
    · intro h1
      simp [readBinary, h, h1]
    · intro h1
      simp [readBinary, h, h1]

/-- C8 witness: the spec scenario of a complex-valued 4 x 3 product with 8
bytes per pixel: a 90-byte file triggers SizeMismatchError with nothing
written, a 96-byte file reads to shape (4, 3). -/
theorem C8_read_size_validation_witness :
    readBinary ⟨"int", 4, 3, 8, 1⟩ 90 = .error .sizeMismatchError ∧
    (readThenWrite ⟨[], []⟩ ⟨"int", 4, 3, 8, 1⟩ 90 "o.tiff").2 = ⟨[], []⟩ ∧
    readBinary ⟨"int", 4, 3, 8, 1⟩ 96 = .ok (.two 4 3) := by
  refine ⟨?_, ?_, ?_⟩
  · exact ((C8_read_size_validation ⟨"int", 4, 3, 8, 1⟩ 90 ⟨[], []⟩ "o.tiff").1
      (by decide)).1
  · exact ((C8_read_size_validation ⟨"int", 4, 3, 8, 1⟩ 90 ⟨[], []⟩ "o.tiff").1
      (by decide)).2.2
  · exact ((C8_read_size_validation ⟨"int", 4, 3, 8, 1⟩ 96 ⟨[], []⟩ "o.tiff").2
      (by decide)).1 rfl

/-- C9: the Georeferencing Resolver modelled from the spec maps a record
with all required keys to the affine transform with origin (starting
longitude, starting latitude) and pixel size (column spacing, negated row
spacing), so for positive spacings the x pixel size is positive and the y
pixel size negative; and the concrete spec scenario record resolves to
origin (-119, 36) with pixel size (1/10000, -(1/10000)). -/
theorem C9_resolve_transform :
    (∀ (rows cols : Nat) (rsp csp lat lon : ℚ), 0 < rsp → 0 < csp →
      resolve ⟨some rows, some cols, some rsp, some csp, some lat, some lon⟩ =
        .ok ⟨"EPSG:4326", lon, lat, csp, -rsp⟩ ∧ 0 < csp ∧ -rsp < 0) ∧
    resolve ⟨some 4, some 3, some (1/10000), some (1/10000), some 36, some (-119)⟩ =
      .ok ⟨"EPSG:4326", -119, 36, 1/10000, -(1/10000)⟩ := by
  constructor
  · intro rows cols rsp csp lat lon h1 h2
    exact ⟨rfl, h2, by linarith⟩
  · rfl

/-- C9 witness: the universal part of the resolver theorem applied at the
spec scenario record, with the positivity hypotheses discharged. -/
theorem C9_resolve_transform_witness :
    resolve ⟨some 4, some 3, some (1/10000), some (1/10000), some 36, some (-119)⟩ =
      .ok ⟨"EPSG:4326", -119, 36, 1/10000, -(1/10000)⟩ ∧
    (0 : ℚ) < 1/10000 ∧ -(1/10000 : ℚ) < 0 :=
  C9_resolve_transform.1 4 3 (1/10000) (1/10000) 36 (-119) (by norm_num) (by norm_num)

/-! ## Helper lemmas about the embedding -/

theorem pols_check_iff (ps : List String) :
    ((ps.map strUpper).all (fun p => validPols.any (fun v => v == p)) = true) ↔
      ∀ x ∈ ps, strUpper x ∈ validPols := by
  constructor
  · intro h x hx
    have hm := List.all_eq_true.mp h (strUpper x) (List.mem_map_of_mem _ hx)
    obtain ⟨v, hv, he⟩ := List.any_eq_true.mp hm
    exact (eq_of_beq he) ▸ hv
  · intro h
    refine List.all_eq_true.mpr ?_
    intro p hp
    obtain ⟨x, hx, rfl⟩ := List.mem_map.mp hp
    exact List.any_eq_true.mpr ⟨strUpper x, h x hx, by simp⟩

theorem init_ok_of_valid (home url wd : String) (c d lr : Bool) (ps : List String)
    (h : ∀ x ∈ ps, strUpper x ∈ validPols) :
    isOkE (UavsarScene.init home url wd c d lr (some ps)) = true ∧
    polsOfInit (UavsarScene.init home url wd c d lr (some ps)) =
      some (ps.map strUpper) := by
  cases ps with
  | nil => exact ⟨rfl, rfl⟩
  | cons a t =>
    have hall := (pols_check_iff (a :: t)).mpr h
    simp only [UavsarScene.init]
    rw [if_neg (by simp), if_pos hall]
    exact ⟨rfl, rfl⟩

theorem init_error_of_bad (home url wd : String) (c d lr : Bool) (ps : List String)
    (hne : ps ≠ []) (h : ∃ x ∈ ps, strUpper x ∉ validPols) :
    UavsarScene.init home url wd c d lr (some ps) =
      .error (.valueError "Bad Polarization Provided.") := by
  have hall : ¬ ((ps.map strUpper).all (fun p => validPols.any (fun v => v == p)) = true) := by
    intro hc
    obtain ⟨x, hx, hn⟩ := h
    exact hn ((pols_check_iff ps).mp hc x hx)
  cases ps with
  | nil => exact absurd rfl hne
  | cons a t =>
    simp only [UavsarScene.init]
    rw [if_neg (by simp), if_neg hall]

/-- C10: the polarization filter is case insensitive at the public
interface: whenever every element of the list uppercases into the set of
the four valid polarization names, construction succeeds and the
uppercased forms are stored. -/
theorem C10_pols_case_insensitive (home url wd : String) (c d lr : Bool)
    (ps : List String) (h : ∀ x ∈ ps, strUpper x ∈ validPols) :
    isOkE (UavsarScene.init home url wd c d lr (some ps)) = true ∧
    polsOfInit (UavsarScene.init home url wd c d lr (some ps)) =
      some (ps.map strUpper) :=
  init_ok_of_valid home url wd c d lr ps h

/-- C10 witness: the mixed-case filter list vh, HV is accepted and stored
uppercased. -/
theorem C10_pols_case_insensitive_witness :
    isOkE (UavsarScene.init "" "http://u/pw.zip" "ww" true false false
      (some ["vh", "HV"])) = true ∧
    polsOfInit (UavsarScene.init "" "http://u/pw.zip" "ww" true false false
      (some ["vh", "HV"])) = some (["vh", "HV"].map strUpper) :=
  C10_pols_case_insensitive "" "http://u/pw.zip" "ww" true false false
    ["vh", "HV"] (by decide)

/-- C7 amended: for a non-empty filter list, construction fails with
ValueError exactly when some element uppercases to a name outside the set
of the four valid polarizations; when every element uppercases into that
set, construction succeeds and the uppercased filter is stored (so
lowercase names, which lie outside the set literally, are accepted). -/
theorem C7_amended_pols_validation (home url wd : String) (c d lr : Bool)
    (ps : List String) (hne : ps ≠ []) :
    ((∃ x ∈ ps, strUpper x ∉ validPols) →
      UavsarScene.init home url wd c d lr (some ps) =
        .error (.valueError "Bad Polarization Provided.")) ∧
    ((∀ x ∈ ps, strUpper x ∈ validPols) →
      isOkE (UavsarScene.init home url wd c d lr (some ps)) = true ∧
      polsOfInit (UavsarScene.init home url wd c d lr (some ps)) =
        some (ps.map strUpper)) :=
  ⟨fun h => init_error_of_bad home url wd c d lr ps hne h,
   fun h => init_ok_of_valid home url wd c d lr ps h⟩

/-- C7 amended witness: the list vv, xq (whose second element uppercases
outside the valid set) raises ValueError, while the list hh is
accepted. -/
theorem C7_amended_pols_validation_witness :
    UavsarScene.init "" "http://u/p7.zip" "w7" true false false (some ["vv", "xq"]) =
      .error (.valueError "Bad Polarization Provided.") ∧
    isOkE (UavsarScene.init "" "http://u/p7.zip" "w7" true false false
      (some ["hh"])) = true :=
  ⟨(C7_amended_pols_validation "" "http://u/p7.zip" "w7" true false false
      ["vv", "xq"] (by decide)).1 (by decide),
   ((C7_amended_pols_validation "" "http://u/p7.zip" "w7" true false false
      ["hh"] (by decide)).2 (by decide)).1⟩

theorem grd_tiff_convert_overwrite (fs : FS) (f od a : String) (dbg : Bool) :
    grd_tiff_convert fs f od a true dbg =
      .ok (writeFileFS fs (joinPath od (basename f ++ ".tiff")) (.tiff f a), a,
        .fromFile f a, product_type f, joinPath od (basename f ++ ".tiff")) := by
  simp [grd_tiff_convert]

theorem mem_dictInsert {m : List (String × ConvResult)} {k : String} {v : ConvResult}
    {kv : String × ConvResult} (h : kv ∈ dictInsert m k v) : kv = (k, v) ∨ kv ∈ m := by
  unfold dictInsert at h
  by_cases hc : m.any (fun q => q.1 == k) = true
  · rw [if_pos hc] at h
    obtain ⟨q, hq, hmap⟩ := List.mem_map.mp h
    by_cases hk : (q.1 == k) = true
    · rw [if_pos hk] at hmap
      exact .inl hmap.symm
    · rw [if_neg hk] at hmap
      exact .inr (hmap ▸ hq)
  · rw [if_neg hc] at h
    rcases List.mem_append.mp h with h1 | h1
    · exact .inr h1
    · exact .inl (by simpa using h1)

theorem convertLoop_array_flag (lr dbg : Bool) (od : String)
    (env : Option (List String × List (String × String))) :
    ∀ (fps : List String) (afp : Option String) (fs : FS)
      (imgs : List (String × ConvResult))
      (res : Option String × FS × List (String × ConvResult)),
      (∀ kv ∈ imgs, kv.2.array.isNone = lr) →
      convertLoop lr dbg od env fps afp fs imgs = .ok res →
      ∀ kv ∈ res.2.2, kv.2.array.isNone = lr := by
  intro fps
  induction fps with
  | nil =>
    intro afp fs imgs res hinv hrun
    simp only [convertLoop] at hrun
    cases hrun
    exact hinv
  | cons f rest ih =>
    intro afp fs imgs res hinv hrun
    simp only [convertLoop] at hrun
    split at hrun
    · exact Except.noConfusion hrun
    · split at hrun
      · exact Except.noConfusion hrun
      · rw [grd_tiff_convert_overwrite] at hrun
        refine ih _ _ _ _ ?_ hrun
        intro kv hkv
        rcases mem_dictInsert hkv with h1 | h1
        · subst h1
          cases lr <;> simp
        · exact hinv kv h1

theorem btt_images_flag (s : UavsarScene) (fs : FS) (bdir afp0 : Option String)
    (s' : UavsarScene) (fs' : FS) (w : List String)
    (h0 : s.images = [])
    (hrun : s.binary_to_tiffs fs bdir afp0 = (.ok (s', fs'), w)) :
    ∀ kv ∈ s'.images, kv.2.array.isNone = s.low_ram := by
  cases bdir <;>
  · simp only [UavsarScene.binary_to_tiffs] at hrun
    split at hrun
    · simp at hrun
    · rename_i afp1 fs2 images heq
      split at hrun
      · split at hrun
        · simp at hrun
        · simp only [Prod.mk.injEq, Except.ok.injEq] at hrun
          obtain ⟨⟨hs, hfs⟩, hw⟩ := hrun
          subst hs
          intro kv hkv
          refine convertLoop_array_flag _ _ _ _ _ _ _ _ _ ?_ heq kv hkv
          intro kv2 hkv2
          rw [h0] at hkv2
          exact absurd hkv2 (List.not_mem_nil _)
      · simp only [Prod.mk.injEq, Except.ok.injEq] at hrun
        obtain ⟨⟨hs, hfs⟩, hw⟩ := hrun
        subst hs
        intro kv hkv
        refine convertLoop_array_flag _ _ _ _ _ _ _ _ _ ?_ heq kv hkv
        intro kv2 hkv2
        rw [h0] at hkv2
        exact absurd hkv2 (List.not_mem_nil _)

/-- C6: after a successful conversion of a scene (whose result mapping
started empty, as __init__ leaves it), every stored Conversion Result
omits the pixel array exactly when the scene was constructed in
low-memory mode; with low_ram off every stored result retains the
array (uavsar_scene.py lines 139-142). -/
theorem C6_low_ram_array_retention (s : UavsarScene) (fs : FS)
    (bdir afp0 : Option String) (s' : UavsarScene) (fs' : FS) (w : List String)
    (h0 : s.images = [])
    (hrun : s.binary_to_tiffs fs bdir afp0 = (.ok (s', fs'), w)) :
    s'.images.all (fun kv => kv.2.array.isNone == s.low_ram) = true := by
  refine List.all_eq_true.mpr ?_
  intro kv hkv
  exact beq_iff_eq.mpr (btt_images_flag s fs bdir afp0 s' fs' w h0 hrun kv hkv)

/-- C6 witness: the low-memory scene p6 converts successfully and its one
stored result omits the array. -/
theorem C6_low_ram_array_retention_witness :
    (sceneOf c6_run.1).images.all
      (fun kv => kv.2.array.isNone == c6_setup.1.low_ram) = true :=
  C6_low_ram_array_retention c6_setup.1 c6_setup.2 none none (sceneOf c6_run.1)
    (fsOf c6_run.1) c6_run.2 (by decide) (by decide)

theorem dictInsert_keys (m : List (String × ConvResult)) (k : String) (v : ConvResult) :
    (dictInsert m k v).map Prod.fst = insertKey (m.map Prod.fst) k := by
  unfold dictInsert insertKey
  have hany : ((m.map Prod.fst).any (fun x => x == k)) = (m.any (fun q => q.1 == k)) := by
    induction m with
    | nil => rfl
    | cons q t iht => simp only [List.map_cons, List.any_cons, iht]
  by_cases hc : m.any (fun q => q.1 == k) = true
  · rw [if_pos hc, if_pos (by rw [hany]; exact hc), List.map_map]
    refine List.map_congr_left ?_
    intro q hq
    by_cases hk : (q.1 == k) = true
    · simp only [Function.comp_apply, if_pos hk]
      exact (eq_of_beq hk).symm
    · simp only [Function.comp_apply, if_neg hk]
  · rw [if_neg hc, if_neg (by rw [hany]; exact hc), List.map_append]
    rfl

theorem convertLoop_keys (lr dbg : Bool) (od : String)
    (env : Option (List String × List (String × String))) :
    ∀ (fps : List String) (afp : Option String) (fs : FS)
      (imgs : List (String × ConvResult))
      (res : Option String × FS × List (String × ConvResult)),
      convertLoop lr dbg od env fps afp fs imgs = .ok res →
      res.2.2.map Prod.fst =
        fps.foldl (fun ks f => insertKey ks (product_type f)) (imgs.map Prod.fst) := by
  intro fps
  induction fps with
  | nil =>
    intro afp fs imgs res hrun
    simp only [convertLoop] at hrun
    cases hrun
    rfl
  | cons f rest ih =>
    intro afp fs imgs res hrun
    simp only [convertLoop] at hrun
    split at hrun
    · exact Except.noConfusion hrun
    · split at hrun
      · exact Except.noConfusion hrun
      · rw [grd_tiff_convert_overwrite] at hrun
        rw [List.foldl_cons, ← dictInsert_keys]
        exact ih _ _ _ _ hrun

theorem btt_keys (s : UavsarScene) (fs : FS) (afp0 : Option String)
    (s' : UavsarScene) (fs' : FS) (w : List String)
    (h0 : s.images = [])
    (hrun : s.binary_to_tiffs fs none afp0 = (.ok (s', fs'), w)) :
    s'.images.map Prod.fst =
      (s.binary_fps.filter (fun f => !(containsSub f ".ann"))).foldl
        (fun ks f => insertKey ks (product_type f)) [] := by
  simp only [UavsarScene.binary_to_tiffs] at hrun
  split at hrun
  · simp at hrun
  · rename_i afp1 fs2 images heq
    have hk := convertLoop_keys _ _ _ _ _ _ _ _ _ heq
    rw [h0] at hk
    split at hrun
    · split at hrun
      · simp at hrun
      · simp only [Prod.mk.injEq, Except.ok.injEq] at hrun
        obtain ⟨⟨hs, hfs⟩, hw⟩ := hrun
        subst hs
        exact hk
    · simp only [Prod.mk.injEq, Except.ok.injEq] at hrun
      obtain ⟨⟨hs, hfs⟩, hw⟩ := hrun
      subst hs
      exact hk

/-- C5 amended: after a successful conversion (with the result mapping
starting empty), the keys of the result mapping are exactly the product
types of the converted binary files, deduplicated in first-conversion
order — one Conversion Result per DISTINCT product type, not per binary
file; a later file of an already-seen product type replaces the earlier
entry (dict assignment at uavsar_scene.py lines 140-142). -/
theorem C5_amended_one_result_per_product_type (s : UavsarScene) (fs : FS)
    (afp0 : Option String) (s' : UavsarScene) (fs' : FS) (w : List String)
    (h0 : s.images = [])
    (hrun : s.binary_to_tiffs fs none afp0 = (.ok (s', fs'), w)) :
    s'.images.map Prod.fst =
      (s.binary_fps.filter (fun f => !(containsSub f ".ann"))).foldl
        (fun ks f => insertKey ks (product_type f)) [] :=
  btt_keys s fs afp0 s' fs' w h0 hrun

/-- C5 amended witness: for the scene with two binary files of one product
type, the keys of the result mapping are the deduplicated product types
(a single key grd). -/
theorem C5_amended_one_result_per_product_type_witness :
    (sceneOf c5_run.1).images.map Prod.fst =
      (c5_setup.1.binary_fps.filter (fun f => !(containsSub f ".ann"))).foldl
        (fun ks f => insertKey ks (product_type f)) [] :=
  C5_amended_one_result_per_product_type c5_setup.1 c5_setup.2 none
    (sceneOf c5_run.1) (fsOf c5_run.1) c5_run.2 (by decide) (by decide)

theorem convertLoop_missing_pol_aborts (lr dbg : Bool) (od : String)
    (afps : List String) (adic : List (String × String)) (hdic : 0 < adic.length)
    (f p : String) (ps' : List String)
    (hpol : validPols.filter (fun pol => containsSub (basename f) pol) = p :: ps')
    (hmiss : adic.lookup p = none) :
    ∀ (fps : List String) (afp : Option String) (fs : FS)
      (imgs : List (String × ConvResult)),
      f ∈ fps →
      isOkE (convertLoop lr dbg od (some (afps, adic)) fps afp fs imgs) = false := by
  intro fps
  induction fps with
  | nil =>
    intro afp fs imgs hmem
    exact absurd hmem (List.not_mem_nil _)
  | cons f0 rest ih =>
    intro afp fs imgs hmem
    simp only [convertLoop]
    rcases List.mem_cons.mp hmem with heq | hmem2
    · subst heq
      simp [hpol, hmiss, hdic, isOkE]
    · split
      · rfl
      · split
        · rfl
        · rw [grd_tiff_convert_overwrite]
          exact ih _ _ _ hmem2

/-- C2 amended: when the binary file list holds at least one annotation
file, the annotation dictionary is non-empty, and some binary image file
has a first matching polarization that is absent from the dictionary,
then binary_to_tiffs does not skip that file and logs no warning: the
whole scene conversion aborts with an exception (the KeyError of
ann_dic[f_pol] at uavsar_scene.py line 135, as the counterexample shows
concretely). -/
theorem C2_amended_missing_pol_ann_aborts (s : UavsarScene) (fs : FS)
    (afps : List String) (f p : String) (ps' : List String)
    (hafps : s.binary_fps.filter (fun a => containsSub a ".ann") = afps)
    (hne : afps ≠ [])
    (hdic : 0 < (annDic afps).length)
    (hmem : f ∈ s.binary_fps.filter (fun a => !(containsSub a ".ann")))
    (hpol : validPols.filter (fun pol => containsSub (basename f) pol) = p :: ps')
    (hmiss : (annDic afps).lookup p = none) :
    isOkE (s.binary_to_tiffs fs none none).1 = false ∧
    (s.binary_to_tiffs fs none none).2 = [] := by
  have hemp : afps.isEmpty = false := by
    cases afps with
    | nil => exact absurd rfl hne
    | cons a t => rfl
  have hloop := convertLoop_missing_pol_aborts s.low_ram s.debug
    (joinPath s.work_dir s.pair_name) afps (annDic afps) hdic f p ps' hpol hmiss
    (s.binary_fps.filter (fun a => !(containsSub a ".ann"))) none
    (if pathExists fs (joinPath s.work_dir s.pair_name) then fs
      else makedirs fs (joinPath s.work_dir s.pair_name)) s.images hmem
  simp only [UavsarScene.binary_to_tiffs, hafps, hemp, optFalsy,
    Bool.false_eq_true, if_true, if_false]
  cases hl : convertLoop s.low_ram s.debug (joinPath s.work_dir s.pair_name)
      (some (afps, annDic afps))
      (s.binary_fps.filter (fun a => !(containsSub a ".ann"))) none
      (if pathExists fs (joinPath s.work_dir s.pair_name) then fs
        else makedirs fs (joinPath s.work_dir s.pair_name)) s.images with
  | error e => exact ⟨rfl, rfl⟩
  | ok r =>
    rw [hl] at hloop
    simp [isOkE] at hloop

/-- C2 amended witness: the amended theorem applied to the concrete scene
whose HV annotation is missing: its conversion is not successful and logs
no warning. -/
theorem C2_amended_missing_pol_ann_aborts_witness :
    isOkE ((c2_setup.1).binary_to_tiffs c2_setup.2 none none).1 = false ∧
    ((c2_setup.1).binary_to_tiffs c2_setup.2 none none).2 = [] :=
  C2_amended_missing_pol_ann_aborts c2_setup.1 c2_setup.2
    (c2_setup.1.binary_fps.filter (fun a => containsSub a ".ann"))
    "w2/tmp/p2/bin_imgs/s_HV.grd" "HV" []
    rfl (by decide) (by decide) (by decide) (by decide) (by decide)

/-! ## Path lemmas for the frame property -/

theorem strStarts_append_of (pre a b : String) (h : strStarts pre a = true) :
    strStarts pre (a ++ b) = true := by
  unfold strStarts at h ⊢
  rw [String.data_append]
  exact List.isPrefixOf_iff_prefix.mpr
    ((List.isPrefixOf_iff_prefix.mp h).trans (List.prefix_append _ _))

theorem strStarts_refl_append (a b : String) : strStarts a (a ++ b) = true := by
  unfold strStarts
  rw [String.data_append]
  exact List.isPrefixOf_iff_prefix.mpr (List.prefix_append _ _)

theorem strStarts_nonempty (pre a : String) (h : strStarts pre a = true)
    (hp : pre ≠ "") : (a == "") = false := by
  refine beq_eq_false_iff_ne.mpr ?_
  intro ha
  subst ha
  refine hp (String.ext ?_)
  exact List.prefix_nil.mp (List.isPrefixOf_iff_prefix.mp h)

theorem strStarts_joinPath (pre a b : String) (hp : pre ≠ "")
    (ha : strStarts pre a = true) (hb : strStarts "/" b = false) :
    strStarts pre (joinPath a b) = true := by
  unfold joinPath
  rw [hb]
  simp only [Bool.false_eq_true, if_false]
  rw [strStarts_nonempty pre a ha hp]
  simp only [Bool.false_eq_true, if_false]
  split
  · exact strStarts_append_of pre a b ha
  · exact strStarts_append_of pre (a ++ "/") b (strStarts_append_of pre a "/" ha)

theorem underPath_of_starts (root p : String)
    (h : strStarts (root ++ "/") p = true) : underPath root p = true := by
  unfold underPath
  rw [h, Bool.or_true]

theorem splitChar_ne_nil (sep : Char) (l : List Char) : splitChar sep l ≠ [] := by
  induction l with
  | nil => simp [splitChar]
  | cons c rest ih =>
    by_cases hc : (c == sep) = true
    · simp [splitChar, hc]
    · simp only [splitChar, hc, Bool.false_eq_true, if_false]
      cases hr : splitChar sep rest with
      | nil => simp
      | cons h t => simp

theorem splitChar_sep_not_mem (sep : Char) (l : List Char) :
    ∀ piece ∈ splitChar sep l, sep ∉ piece := by
  induction l with
  | nil =>
    intro piece hp
    simp only [splitChar, List.mem_singleton] at hp
    subst hp
    simp
  | cons c rest ih =>
    intro piece hp
    simp only [splitChar] at hp
    by_cases hc : (c == sep) = true
    · rw [if_pos hc] at hp
      rcases List.mem_cons.mp hp with h1 | h1
      · subst h1; simp
      · exact ih piece h1
    · rw [if_neg hc] at hp
      have hcne : c ≠ sep := fun h => hc (beq_iff_eq.mpr h)
      cases hr : splitChar sep rest with
      | nil => exact absurd hr (splitChar_ne_nil sep rest)
      | cons h t =>
        rw [hr] at hp
        rcases List.mem_cons.mp hp with h1 | h1
        · subst h1
          intro hmem
          rcases List.mem_cons.mp hmem with h2 | h2
          · exact hcne h2.symm
          · exact ih h (hr ▸ List.mem_cons_self h t) h2
        · exact ih piece (hr ▸ List.mem_cons_of_mem h h1)

theorem getLastD_mem {α : Type} : ∀ (l : List α) (d : α), l ≠ [] → l.getLastD d ∈ l
  | [], _, h => absurd rfl h
  | x :: t, d, _ => by
    rw [List.getLastD_cons]
    exact List.getLastD_mem_cons t x

theorem basename_tiff_no_slash (f : String) :
    strStarts "/" (basename f ++ ".tiff") = false := by
  unfold strStarts basename
  rw [String.data_append]
  cases hlast : (splitChar '/' f.data).getLastD [] with
  | nil => rfl
  | cons c cs =>
    have hc : c ≠ '/' := by
      intro heq
      subst heq
      exact splitChar_sep_not_mem '/' f.data _
        (hlast ▸ getLastD_mem _ [] (splitChar_ne_nil '/' f.data))
        (List.mem_cons_self _ _)
    simp only [List.isPrefixOf, List.isPrefixOf_nil_left, Bool.and_true]
    exact beq_eq_false_iff_ne.mpr (fun h => hc h.symm)

theorem underPath_trans_neg (w r p : String) (hr : underPath w r = true)
    (hp : underPath w p = false) : underPath r p = false := by
  cases hrp : underPath r p with
  | false => rfl
  | true =>
    exfalso
    have hpt : underPath w p = true := by
      unfold underPath at hrp hr ⊢
      rw [Bool.or_eq_true] at hrp hr
      rcases hrp with h1 | h1
      · rw [eq_of_beq h1]
        unfold underPath at *
        rw [Bool.or_eq_true]
        exact hr
      · rcases hr with h2 | h2
        · rw [← eq_of_beq h2, Bool.or_eq_true]
          exact .inr h1
        · rw [Bool.or_eq_true]
          refine .inr ?_
          unfold strStarts at h1 h2 ⊢
          refine List.isPrefixOf_iff_prefix.mpr ?_
          have p1 := List.isPrefixOf_iff_prefix.mp h2
          have p2 := List.isPrefixOf_iff_prefix.mp h1
          have p3 : r.data <+: (r ++ "/").data := by
            rw [String.data_append]
            exact List.prefix_append _ _
          exact p1.trans (p3.trans p2)
    rw [hp] at hpt
    exact Bool.false_ne_true hpt

theorem lookup_filter_keep {β : Type} (l : List (String × β)) (f : String × β → Bool)
    (p : String) (h : ∀ q ∈ l, q.1 = p → f q = true) :
    (l.filter f).lookup p = l.lookup p := by
  induction l with
  | nil => rfl
  | cons x t ih =>
    obtain ⟨k, b⟩ := x
    by_cases hx : f (k, b) = true
    · rw [List.filter_cons_of_pos hx]
      simp only [List.lookup]
      cases hpk : (p == k) with
      | true => rfl
      | false => exact ih (fun q hq => h q (List.mem_cons_of_mem (k, b) hq))
    · have hne : k ≠ p := fun he => hx (h (k, b) (List.mem_cons_self (k, b) t) he)
      rw [List.filter_cons_of_neg hx]
      simp only [List.lookup]
      rw [ih (fun q hq => h q (List.mem_cons_of_mem (k, b) hq))]
      have : (p == k) = false := beq_eq_false_iff_ne.mpr (fun he => hne he.symm)
      rw [this]

theorem any_filter_keep (l : List String) (f : String → Bool) (p : String)
    (h : ∀ q ∈ l, q = p → f q = true) :
    (l.filter f).any (fun d => d == p) = l.any (fun d => d == p) := by
  induction l with
  | nil => rfl
  | cons x t ih =>
    by_cases hx : f x = true
    · rw [List.filter_cons_of_pos hx, List.any_cons, List.any_cons,
        ih (fun q hq => h q (List.mem_cons_of_mem x hq))]
    · rw [List.filter_cons_of_neg hx, List.any_cons]
      have hne : (x == p) = false :=
        beq_eq_false_iff_ne.mpr (fun he => hx (h x (List.mem_cons_self x t) he))
      rw [hne, Bool.false_or]
      exact ih (fun q hq => h q (List.mem_cons_of_mem x hq))

theorem lookup_append_of_none {β : Type} (l₁ l₂ : List (String × β)) (p : String)
    (h2 : l₂.lookup p = none) : (l₁ ++ l₂).lookup p = l₁.lookup p := by
  induction l₁ with
  | nil => simpa using h2
  | cons x t ih =>
    obtain ⟨k, b⟩ := x
    simp only [List.cons_append, List.lookup]
    cases hpk : (p == k) with
    | true => rfl
    | false => exact ih

theorem content_writeFileFS_ne (fs : FS) (q : String) (d : FileData) (p : String)
    (hne : p ≠ q) : (writeFileFS fs q d).content p = fs.content p := by
  unfold writeFileFS FS.content
  simp only
  rw [lookup_append_of_none _ _ _ (by simp [List.lookup, beq_eq_false_iff_ne.mpr hne])]
  exact lookup_filter_keep fs.files _ p (fun x hx hxp => by
    rw [hxp]
    simp [beq_eq_false_iff_ne.mpr hne])

theorem hasDir_writeFileFS (fs : FS) (q : String) (d : FileData) (p : String) :
    (writeFileFS fs q d).hasDir p = fs.hasDir p := rfl

theorem content_makedirs (fs : FS) (q p : String) :
    (makedirs fs q).content p = fs.content p := rfl

theorem hasDir_makedirs_ne (fs : FS) (q p : String) (hne : (q == p) = false) :
    (makedirs fs q).hasDir p = fs.hasDir p := by
  unfold makedirs FS.hasDir
  simp only
  rw [List.any_append]
  simp [hne]

theorem content_rmtree_keep (fs : FS) (r p : String) (h : underPath r p = false) :
    (rmtree fs r).content p = fs.content p := by
  unfold rmtree FS.content
  simp only
  exact lookup_filter_keep fs.files _ p (fun q hq hqp => by rw [hqp, h]; rfl)

theorem hasDir_rmtree_keep (fs : FS) (r p : String) (h : underPath r p = false) :
    (rmtree fs r).hasDir p = fs.hasDir p := by
  unfold rmtree FS.hasDir
  simp only
  exact any_filter_keep fs.dirs _ p (fun q hq hqp => by rw [hqp, h]; rfl)

theorem convertLoop_frame (lr dbg : Bool) (od : String)
    (env : Option (List String × List (String × String))) (pre p : String)
    (hpre : pre ≠ "") (hod : strStarts pre od = true)
    (hp : strStarts pre p = false) :
    ∀ (fps : List String) (afp : Option String) (fs : FS)
      (imgs : List (String × ConvResult))
      (res : Option String × FS × List (String × ConvResult)),
      convertLoop lr dbg od env fps afp fs imgs = .ok res →
      res.2.1.content p = fs.content p ∧ res.2.1.hasDir p = fs.hasDir p := by
  intro fps
  induction fps with
  | nil =>
    intro afp fs imgs res hrun
    simp only [convertLoop] at hrun
    cases hrun
    exact ⟨rfl, rfl⟩
  | cons f rest ih =>
    intro afp fs imgs res hrun
    simp only [convertLoop] at hrun
    split at hrun
    · exact Except.noConfusion hrun
    · split at hrun
      · exact Except.noConfusion hrun
      · rw [grd_tiff_convert_overwrite] at hrun
        have hne : p ≠ joinPath od (basename f ++ ".tiff") := by
          intro he
          have hout := strStarts_joinPath pre od (basename f ++ ".tiff") hpre hod
            (basename_tiff_no_slash f)
          rw [← he] at hout
          rw [hout] at hp
          exact Bool.false_ne_true hp.symm
        obtain ⟨h1, h2⟩ := ih _ _ _ _ hrun
        refine ⟨?_, ?_⟩
        · rw [h1, content_writeFileFS_ne _ _ _ _ hne]
        · rw [h2, hasDir_writeFileFS]

/-- C4 amended: the conversion operation of a scene creates and deletes
files and directories only inside the subtree of that scene's work
directory (under the standard layout where tmp_dir lies below the work
directory), so every path outside that subtree — in particular every file
of a second scene whose work directory is disjoint — keeps its content
and existence across a completed conversion including its cleanup.
Scenes with distinct pair names SHARING a work directory are not
independent: the counterexample shows the cleanup deleting the other
scene's temporary files from the shared work_dir/tmp tree. -/
theorem C4_amended_conversion_confined_to_work_dir (s : UavsarScene) (fs : FS)
    (bdir afp0 : Option String) (p : String) (s' : UavsarScene) (fs' : FS)
    (w : List String)
    (hw : s.work_dir ≠ "")
    (hwe : strEnds "/" s.work_dir = false)
    (hpair : strStarts "/" s.pair_name = false)
    (htmp : ∀ t, s.tmp_dir = some t → underPath s.work_dir (dirname t) = true)
    (hp : underPath s.work_dir p = false)
    (hrun : s.binary_to_tiffs fs bdir afp0 = (.ok (s', fs'), w)) :
    fs'.content p = fs.content p ∧ fs'.hasDir p = fs.hasDir p := by
  have hpre : s.work_dir ++ "/" ≠ "" := by
    intro he
    have hd := congrArg String.data he
    rw [String.data_append] at hd
    simp at hd
  have hout_eq : joinPath s.work_dir s.pair_name = s.work_dir ++ "/" ++ s.pair_name := by
    unfold joinPath
    rw [hpair]
    simp only [Bool.false_eq_true, if_false]
    rw [beq_eq_false_iff_ne.mpr hw]
    simp only [Bool.false_eq_true, if_false]
    rw [hwe]
    simp only [Bool.false_eq_true, if_false]
  have hout : strStarts (s.work_dir ++ "/") (joinPath s.work_dir s.pair_name) = true := by
    rw [hout_eq]
    exact strStarts_refl_append (s.work_dir ++ "/") s.pair_name
  have hood : underPath s.work_dir (joinPath s.work_dir s.pair_name) = true :=
    underPath_of_starts _ _ hout
  have hne_out_p : (joinPath s.work_dir s.pair_name == p) = false := by
    refine beq_eq_false_iff_ne.mpr ?_
    intro he
    have hupt : underPath s.work_dir p = true := he ▸ hood
    rw [hp] at hupt
    exact Bool.false_ne_true hupt
  have hp2 : strStarts (s.work_dir ++ "/") p = false := by
    unfold underPath at hp
    exact (Bool.or_eq_false_iff.mp hp).2
  have hfs1c : (if pathExists fs (joinPath s.work_dir s.pair_name) then fs
      else makedirs fs (joinPath s.work_dir s.pair_name)).content p = fs.content p := by
    split
    · rfl
    · exact content_makedirs fs _ p
  have hfs1d : (if pathExists fs (joinPath s.work_dir s.pair_name) then fs
      else makedirs fs (joinPath s.work_dir s.pair_name)).hasDir p = fs.hasDir p := by
    split
    · rfl
    · exact hasDir_makedirs_ne fs _ p hne_out_p
  cases bdir <;>
  · simp only [UavsarScene.binary_to_tiffs] at hrun
    split at hrun
    · simp at hrun
    · rename_i afp1 fs2 images heq
      obtain ⟨hl1, hl2⟩ := convertLoop_frame _ _ _ _ (s.work_dir ++ "/") p hpre hout hp2
        _ _ _ _ _ heq
      split at hrun
      · split at hrun
        · simp at hrun
        · rename_i t heq2
          simp only [Prod.mk.injEq, Except.ok.injEq] at hrun
          obtain ⟨⟨hs, hfs⟩, hww⟩ := hrun
          subst hfs
          have hrt := underPath_trans_neg s.work_dir (dirname t) p (htmp t heq2) hp
          refine ⟨?_, ?_⟩
          · rw [content_rmtree_keep fs2 _ p hrt]
            rw [hl1] at *
            exact hfs1c
          · rw [hasDir_rmtree_keep fs2 _ p hrt]
            rw [hl2] at *
            exact hfs1d
      · simp only [Prod.mk.injEq, Except.ok.injEq] at hrun
        obtain ⟨⟨hs, hfs⟩, hww⟩ := hrun
        subst hfs
        refine ⟨?_, ?_⟩
        · rw [hl1] at *
          exact hfs1c
        · rw [hl2] at *
          exact hfs1d

/-- C4 amended witness: the frame theorem applied to the concrete pair of
scenes with distinct work directories wA and wB: the conversion of the wA
scene (cleanup included) leaves the wB scene's downloaded zip unchanged. -/
theorem C4_amended_conversion_confined_witness :
    (fsOf c4w_run.1).content "wB/tmp/p2/p2.zip" =
      (c4w_setup.2).content "wB/tmp/p2/p2.zip" ∧
    (fsOf c4w_run.1).hasDir "wB/tmp/p2/p2.zip" =
      (c4w_setup.2).hasDir "wB/tmp/p2/p2.zip" :=
  C4_amended_conversion_confined_to_work_dir c4w_setup.1 c4w_setup.2 none none
    "wB/tmp/p2/p2.zip" (sceneOf c4w_run.1) (fsOf c4w_run.1) c4w_run.2
    (by decide) (by decide) (by decide)
    (by
      intro t ht
      rw [show c4w_setup.1.tmp_dir = some "wA/tmp/p1" by decide] at ht
      cases ht
      decide)
    (by decide) (by decide)
